import Mathlib

/-!
Verification of the footron-api auth manager and websocket messaging router.

The definitions below are a shallow embedding of the Python sources:

* `footron_api/data/auth.py` — `AuthManager` (code rotation, lock state machine,
  timing-safe comparison, auto-cycle timer bookkeeping);
* `footron_api/routes/messaging.py` — `_AppConnection`, `_ClientConnection`,
  `_ConnectionManager` and the two websocket endpoints;
* `footron_api/routes/api.py` — `validate_auth_code` and the `/api/current`
  handlers;
* `footron_api/data/controller.py` — the controller client surface used above.

Code generation (`secrets.token_urlsafe`) is nondeterministic, so every
operation that generates a code takes the freshly generated string as an
explicit parameter.  Asynchronous steps that the spec treats as atomic
(`advance`, the lock setter together with `_handle_lock_change`) are modelled
as pure state transformers; observable side effects (socket sends, queue puts,
controller HTTP calls) are returned as explicit effect lists.  A Python
expression that raises is modelled with `Except`.
-/

namespace Footron

/-- Python `dict` assignment `d[k] = v` on an insertion-ordered association
list: replaces the value of an existing key in place, otherwise appends. -/
def dictInsert (k : String) (v : α) : List (String × α) → List (String × α)
  | [] => [(k, v)]
  | (k', v') :: rest =>
    if k' = k then (k, v) :: rest else (k', v') :: dictInsert k v rest

/-- Python `d[k]` / `d.get(k)`: first value bound to `k`. -/
def dictGet (k : String) : List (String × α) → Option α
  | [] => none
  | (k', v') :: rest => if k' = k then some v' else dictGet k rest

/-- Python `del d[k]`: removes the binding of `k`, if any. -/
def dictErase (k : String) : List (String × α) → List (String × α)
  | [] => []
  | (k', v') :: rest =>
    if k' = k then rest else (k', v') :: dictErase k rest

/-- Python `k in d`. -/
def dictContains (k : String) (d : List (String × α)) : Bool :=
  (dictGet k d).isSome

/-- Python `list(d.keys())`. -/
def dictKeys (d : List (String × α)) : List String :=
  d.map Prod.fst

/-- `footron_protocol.Lock = Union[bool, int]`: a Python value that is either a
boolean or an integer.  `False` is the open state, `True` the closed state, and
a (non-boolean) integer `n` a capacity lock of `n`. -/
inductive Lock where
  | bool : Bool → Lock
  | int : Int → Lock
deriving DecidableEq, Repr

namespace Lock

/-- The numeric value Python uses for `==` and truthiness on `Union[bool, int]`
(`False == 0`, `True == 1`). -/
def pyValue : Lock → Int
  | .bool b => if b then 1 else 0
  | .int n => n

/-- Python `==` on two lock values (`0 == False`, `1 == True`). -/
def pyEq (a b : Lock) : Bool :=
  a.pyValue = b.pyValue

/-- Python truthiness of a lock value (`bool(x)`). -/
def truthy (l : Lock) : Bool :=
  l.pyValue ≠ 0

/-- Python `type(x) == bool`. -/
def isBoolInstance : Lock → Bool
  | .bool _ => true
  | .int _ => false

/-- Python `isinstance(x, int) and not isinstance(x, bool)`. -/
def isIntNotBool : Lock → Bool
  | .bool _ => false
  | .int _ => true

end Lock

/-! ## AuthManager (`footron_api/data/auth.py`) -/

/-- The mutable state of `AuthManager`.

`code` is annotated `str` in the source but `advance` assigns it from
`self.next_code`, which is `Optional[str]`, so it is modelled as an option.
`timer_armed` records whether an auto-cycle `_advance_after_timeout` task is
pending. -/
structure AuthState where
  code : Option String
  next_code : Option String
  last_lock : Lock
  lock : Lock
  timer_armed : Bool
deriving DecidableEq, Repr

namespace AuthManager

/-- `secrets.compare_digest` on two `str` arguments: a constant-time equality
check; a length mismatch yields `false` with no early exit. -/
def compare_digest (a b : String) : Bool :=
  a = b

/-- `AuthManager._check(a, b)`.  The guard `($a is None) != (b is None)`
returns `false` when exactly one argument is `None`; when both are `None`
control falls through to `secrets.compare_digest(None, None)`, which raises
`TypeError`.  The raise is modelled as `Except.error`. -/
def _check (a b : Option String) : Except String Bool :=
  if a.isNone != b.isNone then
    .ok false
  else
    match a, b with
    | some x, some y => .ok (compare_digest x y)
    | _, _ => .error "TypeError: expected str or bytes-like object, not NoneType"

/-- `AuthManager.check(code)`: compare against `current_code`. -/
def check (s : AuthState) (code : String) : Except String Bool :=
  _check (some code) s.code

/-- `AuthManager.check_next(code)`: compare against `next_code`. -/
def check_next (s : AuthState) (code : String) : Except String Bool :=
  _check (some code) s.next_code

/-- `check` never raises when called with an actual string (the `TypeError`
needs both arguments `None`), so call sites may read its boolean directly;
the `error` fallback below is unreachable (`check_ok_of_some`). -/
def checkBool (s : AuthState) (code : String) : Bool :=
  match check s code with
  | .ok b => b
  | .error _ => false

/-- Boolean reading of `check_next` at call sites that pass a real string. -/
def checkNextBool (s : AuthState) (code : String) : Bool :=
  match check_next s code with
  | .ok b => b
  | .error _ => false

/-- `AuthManager.__init__`: both codes are freshly generated, the lock starts
out `False` (open) and the first auto-cycle timer task is created. -/
def init (c0 c1 : String) : AuthState :=
  { code := some c0
    next_code := some c1
    last_lock := .bool false
    lock := .bool false
    timer_armed := true }

/-- `AuthManager.advance()`: when the lock is falsy, promote `next_code` to
`code` and mint a fresh `next_code`; then cancel any pending auto-cycle task
and re-arm it only when the lock is falsy. -/
def advance (fresh : String) (s : AuthState) : AuthState :=
  let s1 :=
    if s.lock.truthy then s
    else { s with code := s.next_code, next_code := some fresh }
  { s1 with timer_armed := !s1.lock.truthy }

/-- `AuthManager._handle_lock_change()`, run after the lock setter has already
stored the new lock in `lock` and the old one in `last_lock`:
an integer (capacity) lock copies `code` into `next_code`; `True` clears
`next_code`; otherwise (`False`) a fresh `next_code` is generated, and `code`
is regenerated as well exactly when the previous lock was a boolean.
The auto-cycle timer is not touched on this path. -/
def _handle_lock_change (fresh_next fresh_code : String) (s : AuthState) :
    AuthState :=
  if s.lock.isIntNotBool then
    { s with next_code := s.code }
  else if s.lock = .bool true then
    { s with next_code := none }
  else
    let s1 := { s with next_code := some fresh_next }
    if s.last_lock.isBoolInstance then { s1 with code := some fresh_code } else s1

/-- The `AuthManager.lock` property setter followed by the
`_handle_lock_change` task it schedules, taken as one atomic step: a no-op
when the new value compares `==` equal to the current lock. -/
def set_lock (l : Lock) (fresh_next fresh_code : String) (s : AuthState) :
    AuthState :=
  if l.pyEq s.lock then s
  else _handle_lock_change fresh_next fresh_code
    { s with last_lock := s.lock, lock := l }

/-- The states an `AuthManager` can reach from construction under any
sequence of `advance()` and lock-setter operations, each taken atomically. -/
inductive Reachable : AuthState → Prop where
  | init : ∀ c0 c1, Reachable (init c0 c1)
  | advance : ∀ {s} (fresh : String), Reachable s → Reachable (advance fresh s)
  | set_lock : ∀ {s} (l : Lock) (f1 f2 : String), Reachable s →
      Reachable (set_lock l f1 f2 s)

end AuthManager

/-! ## Protocol messages

Modelled from the spec: the `footron_protocol` package is an external
dependency whose source is not part of this repository.  Section 4.F of the
spec fixes the closed set of message kinds and their fields; the `client`
field is an "identifiable" mixin present on messages that travel between a
client and its app (`Access`, `ApplicationClient`, `Lifecycle`), and absent
from `Connect`, `DisplaySettings` and the heartbeat kinds. -/

/-- `DisplaySettingsMessage.settings`: optional `lock` and `end_time`. -/
structure DisplaySettings where
  lock : Option Lock := none
  end_time : Option Int := none
deriving DecidableEq, Repr

/-- Modelled from the spec: the `footron_protocol` message variants used by
the router (§4.F).  Optional fields default to Python `None`. -/
inductive Message where
  | connect (app : String)
  | access (app : Option String) (client : Option String) (accepted : Bool)
      (reason : Option String)
  | heartbeatApp (app : Option String) (up : Bool)
  | heartbeatClient (up : Bool) (clients : List (Option String))
  | displaySettings (settings : DisplaySettings)
  | lifecycle (client : Option String) (paused : Bool)
  | applicationClient (client : Option String) (body : String)
deriving DecidableEq, Repr

namespace Message

/-- Python `hasattr(message, "client")`: true exactly for the kinds carrying
the identifiable mixin. -/
def hasClientAttr : Message → Bool
  | .access _ _ _ _ => true
  | .lifecycle _ _ => true
  | .applicationClient _ _ => true
  | _ => false

/-- `message.client` for the kinds that have the attribute (the attribute
itself may hold `None`). -/
def clientField : Message → Option String
  | .access _ c _ _ => c
  | .lifecycle c _ => c
  | .applicationClient c _ => c
  | _ => none

/-- Python `isinstance(message, protocol.ConnectMessage)`. -/
def isConnect : Message → Bool
  | .connect _ => true
  | _ => false

end Message

/-! ## Connections and the connection manager
(`footron_api/routes/messaging.py`) -/

/-- The single `asyncio.Queue()` that is the default value of the
`_AppConnection.queue` dataclass field.  A plain default (unlike
`dataclasses.field(default_factory=...)`, used for `clients`) is evaluated
once, when the class object is created, so every `_AppConnection` instance
shares this one queue object.  Queues are identified by number. -/
def defaultAppQueue : Nat := 0

/-- The single `asyncio.Queue()` default of `_ClientConnection.queue`,
likewise created once at class-definition time and shared by every
`_ClientConnection` instance. -/
def defaultClientQueue : Nat := 1

/-- `_ClientConnection` (dataclass field order: `socket`, `id`, `auth_code`,
`manager`, `app_id`, `queue`, `closed`).  The socket and the manager
back-pointer are left out of the state; frames written to the socket are
returned as effects. -/
structure ClientConnection where
  id : String
  auth_code : String
  app_id : Option String := none
  queueId : Nat := defaultClientQueue
  closed : Bool := false
deriving DecidableEq, Repr

/-- `_AppConnection` (dataclass field order: `socket`, `id`, `manager`,
`queue`, `clients`, `closed`, `lock`). -/
structure AppConnection where
  id : String
  queueId : Nat := defaultAppQueue
  clients : List (String × ClientConnection) := []
  closed : Bool := false
  lock : Lock := .bool false
deriving DecidableEq, Repr

/-- `_ConnectionManager`: registries of app and client connections. -/
structure ConnectionManager where
  apps : List (String × AppConnection) := []
  clients : List (String × ClientConnection) := []
deriving DecidableEq, Repr

/-- `_AppBoundMessageInfo`: a client-originated message together with the
originating client's id. -/
structure AppBoundMessageInfo where
  client : String
  message : Message
deriving DecidableEq, Repr

/-- An item on an app connection's send queue
(`Union[protocol.BaseMessage, _AppBoundMessageInfo]`). -/
inductive AppQueueItem where
  | info : AppBoundMessageInfo → AppQueueItem
  | message : Message → AppQueueItem
deriving DecidableEq, Repr

/-- Observable side effects of a handler step. -/
inductive Effect where
  /-- A frame written to this app connection's socket
  (`_checked_socket_send`); `client` is the value stamped into the
  serialized JSON, when any. -/
  | sendApp (msg : Message) (client : Option String)
  /-- A frame written directly to the socket of the client connection with
  the given id (`_ClientConnection._send_or_disconnect`). -/
  | sendClientSocket (clientId : String) (msg : Message)
  /-- `socket.close()` on the client connection with the given id. -/
  | closeClientSocket (clientId : String)
  /-- `clients[...].send_message_from_app(app, msg)`: a
  `_ClientBoundMessageInfo` put on the queue with the given number, which is
  the `queue` attribute of the client connection with the given id. -/
  | enqueueClient (clientId : String) (queueId : Nat) (app : String)
      (msg : Message)
  /-- `controller_api.patch_current_experience(settings)`. -/
  | patchCurrentExperience (settings : DisplaySettings)
  /-- `AuthManager` lock assignment.  No code path in
  `routes/messaging.py` produces this effect; the constructor exists so that
  its absence can be stated. -/
  | setAuthLock (l : Lock)
deriving DecidableEq, Repr

namespace AppConnection

/-- `_AppConnection.has_client`. -/
def has_client (c : AppConnection) (client_id : String) : Bool :=
  dictContains client_id c.clients

/-- `_AppConnection.send_heartbeat`: serialize a `HeartbeatClientMessage`
onto the app socket. -/
def send_heartbeat (clients : List (Option String)) (up : Bool) : Effect :=
  .sendApp (.heartbeatClient up clients) none

/-- `_AppConnection.send_client_heartbeats`: an up heartbeat listing every
client currently in the connection's map. -/
def send_client_heartbeats (c : AppConnection) : Effect :=
  send_heartbeat ((dictKeys c.clients).map Option.some) true

/-- `_AppConnection.add_client`: store the client under its own `id` and send
a first heartbeat listing the new client set. -/
def add_client (c : AppConnection) (client : ClientConnection) :
    AppConnection × List Effect :=
  let c' := { c with clients := dictInsert client.id client c.clients }
  (c', [send_client_heartbeats c'])

/-- `_AppConnection.remove_client`: drop the client from the map, if present,
and send a negative per-client heartbeat. -/
def remove_client (c : AppConnection) (client_id : String) :
    AppConnection × List Effect :=
  if c.has_client client_id then
    ({ c with clients := dictErase client_id c.clients },
      [send_heartbeat [some client_id] false])
  else (c, [])

/-- `_AppConnection._send_to_client`: look the addressed client up in the
connection's own map and put the message on that client's queue.  A message
without the `client` attribute raises `ValueError`; a client id missing from
the map raises `KeyError`. -/
def _send_to_client (c : AppConnection) (msg : Message) :
    Except String (List Effect) :=
  if msg.hasClientAttr then
    match msg.clientField with
    | some cid =>
      match dictGet cid c.clients with
      | some conn => .ok [.enqueueClient conn.id conn.queueId c.id msg]
      | none => .error "KeyError"
    | none => .error "KeyError"
  else
    .error "ValueError: message to client without client ID"

/-- `_AppConnection._handle_receive_message` (frames arriving from the app
socket).  For a client-addressed message the guard checks both the
connection's own map and the router registry, answering a negative heartbeat
on failure.  On an `AccessMessage` the source builds the
`add_client`/`remove_client` coroutine inside a conditional expression but
never awaits it, so neither the clients map nor any heartbeat is affected;
only the forward to the client happens.  `DisplaySettingsMessage` is patched
to the controller wholesale and nothing else is done with it.  Any other
kind raises `UnhandledMessageTypeError`. -/
def _handle_receive_message (mgr : ConnectionManager) (c : AppConnection)
    (msg : Message) : Except String (AppConnection × List Effect) :=
  if msg.hasClientAttr then
    let cidOpt := msg.clientField
    let inMaps :=
      match cidOpt with
      | some cid => c.has_client cid && dictContains cid mgr.clients
      | none => false
    if !inMaps then
      .ok (c, [send_heartbeat [cidOpt] false])
    else
      match _send_to_client c msg with
      | .ok effs => .ok (c, effs)
      | .error e => .error e
  else
    match msg with
    | .displaySettings settings => .ok (c, [.patchCurrentExperience settings])
    | _ => .error "UnhandledMessageTypeError"

/-- `_AppConnection._handle_send_message` (items drained from the send
queue).  For a client-originated `ConnectMessage`, when the connection's own
`lock` field is falsy, the client is admitted on the app's behalf: it is
added to the map and an affirmative `AccessMessage` is sent to it before the
`Connect` itself is forwarded to the app with the client id stamped in. -/
def _handle_send_message (mgr : ConnectionManager) (c : AppConnection)
    (item : AppQueueItem) : Except String (AppConnection × List Effect) :=
  match item with
  | .info i =>
    if i.message.isConnect && !c.lock.truthy then
      match dictGet i.client mgr.clients with
      | none => .error "KeyError"
      | some clientConn =>
        let (c', effs1) := c.add_client clientConn
        match c'._send_to_client
            (.access (some c.id) (some i.client) true none) with
        | .error e => .error e
        | .ok effs2 =>
          .ok (c', effs1 ++ effs2 ++ [.sendApp i.message (some i.client)])
    else
      .ok (c, [.sendApp i.message (some i.client)])
  | .message m => .ok (c, [.sendApp m none])

end AppConnection

/-- `messaging_out`: the app websocket endpoint constructs
`_AppConnection(websocket, app_id, _manager)`; `queue`, `clients`, `closed`
and `lock` take their dataclass defaults. -/
def messaging_out_connection (app_id : String) : AppConnection :=
  { id := app_id }

/-- `messaging_in`: the client websocket endpoint constructs
`_ClientConnection(websocket, auth_code, str(uuid.uuid4()), _manager)`.
Binding the positional arguments against the dataclass field order
(`socket`, `id`, `auth_code`, `manager`) puts the URL-path code into `id`
and the freshly generated uuid into `auth_code`. -/
def messaging_in_connection (auth_code fresh_uuid : String) :
    ClientConnection :=
  { id := auth_code, auth_code := fresh_uuid }

/-- `_ConnectionManager.try_connect_client`: accept the socket; if
`AuthManager.check` fails on the connection's `auth_code` field, send a
negative `AccessMessage` (reason "Your authentication code is expired or
invalid") and close without registering; otherwise register the connection
in `clients` under its `id`.  `AuthManager.advance` is not called on this
path. -/
def try_connect_client (auth : AuthState) (mgr : ConnectionManager)
    (c : ClientConnection) :
    ConnectionManager × ClientConnection × List Effect :=
  if AuthManager.checkBool auth c.auth_code then
    ({ mgr with clients := dictInsert c.id c mgr.clients }, c, [])
  else
    (mgr, { c with closed := true },
      [.sendClientSocket c.id
        (.access none none false
          (some "Your authentication code is expired or invalid")),
        .closeClientSocket c.id])

/-! ## Queues

An `asyncio.Queue` holds items in FIFO order.  The store maps queue numbers
to contents; a connection reaches its queue through its `queueId` field
(which, per the dataclass defaults above, is the same number for every
connection of a class). -/

/-- The contents of every queue, by queue number. -/
def QueueStore := Nat → List AppQueueItem

/-- `queue.put(item)`: append at the tail. -/
def qput (store : QueueStore) (qid : Nat) (item : AppQueueItem) : QueueStore :=
  fun i => if i = qid then store i ++ [item] else store i

/-- `_AppConnection.send_message_from_client`: wrap the message in an
`_AppBoundMessageInfo` and put it on `self.queue`. -/
def send_message_from_client (store : QueueStore) (c : AppConnection)
    (client_id : String) (msg : Message) : QueueStore :=
  qput store c.queueId (.info { client := client_id, message := msg })

/-- The item `await self.queue.get()` hands to a connection's
`send_handler` on its next iteration: the head of that connection's queue. -/
def send_handler_next (store : QueueStore) (c : AppConnection) :
    Option AppQueueItem :=
  (store c.queueId).head?

/-! ## HTTP API routes (`footron_api/routes/api.py`) -/

/-- A raised `fastapi.HTTPException`. -/
structure HttpError where
  status : Nat
  detail : String
deriving DecidableEq, Repr

/-- Outcome of the `validate_auth_code` dependency: the HTTP response part
(the returned current code, or a raised `HTTPException`), the auth state
afterwards, and how many times `AuthManager.advance()` was invoked. -/
structure ValidateResult where
  response : Except HttpError (Option String)
  auth : AuthState
  advance_calls : Nat

/-- The body of `validate_auth_code` once a client code has been selected:
check against both codes, 401 when neither matches, and call
`AuthManager.advance()` exactly once — before returning — when the next
code matched. -/
def validate_with_code (s : AuthState) (client_code fresh : String) :
    ValidateResult :=
  let matches_code := AuthManager.checkBool s client_code
  let matches_next_code := AuthManager.checkNextBool s client_code
  if !(matches_code || matches_next_code) then
    { response := .error { status := 401, detail := "Invalid auth code" }
      auth := s, advance_calls := 0 }
  else if matches_next_code then
    let s' := AuthManager.advance fresh s
    { response := .ok s'.code, auth := s', advance_calls := 1 }
  else
    { response := .ok s.code, auth := s, advance_calls := 0 }

/-- `validate_auth_code`: header takes precedence over cookie; 403 when
neither carries a credential. -/
def validate_auth_code (s : AuthState) (header_key cookie_key : Option String)
    (fresh : String) : ValidateResult :=
  match header_key, cookie_key with
  | some h, _ => validate_with_code s h fresh
  | none, some ck => validate_with_code s ck fresh
  | none, none =>
    { response := .error { status := 403, detail := "Not authenticated" }
      auth := s, advance_calls := 0 }

/-- A Python value appearing in a keyword-argument dict. -/
inductive PyVal where
  | pyNone
  | int (n : Int)
  | str (s : String)
  | lockVal (l : Lock)
deriving DecidableEq, Repr

/-- The pydantic model `CurrentExperienceUpdate` accepted by
`PATCH /api/current`. -/
structure CurrentExperienceUpdate where
  end_time : Option Int := none
  lock : Option Lock := none
deriving DecidableEq, Repr

/-- `update.dict()`: pydantic's `.dict()` includes every declared field,
unset optionals as `None`. -/
def CurrentExperienceUpdate.dict (u : CurrentExperienceUpdate) :
    List (String × PyVal) :=
  [("end_time", match u.end_time with | some n => .int n | none => .pyNone),
   ("lock", match u.lock with | some l => .lockVal l | none => .pyNone)]

/-- An outbound HTTP call made by `ControllerApi`. -/
inductive ControllerCall where
  /-- `set_current_experience(id)`: `PUT /current` with `{"id": id}`. -/
  | putCurrentExperience (id : PyVal)
  /-- `patch_current_experience(updates)`: `PATCH /current`. -/
  | patchCurrentExperience (fields : List (String × PyVal))
deriving DecidableEq, Repr

/-- Calling `ControllerApi.set_current_experience(**kwargs)`.  Its signature
is `set_current_experience(self, id: str)`, so Python's call binding accepts
exactly the keyword `id`: any other keyword raises `TypeError`, as does a
call that omits `id`. -/
def set_current_experience_call (kwargs : List (String × PyVal)) :
    Except String ControllerCall :=
  if kwargs.all (fun kv => kv.1 = "id") then
    match dictGet "id" kwargs with
    | some v => .ok (.putCurrentExperience v)
    | none =>
      .error "TypeError: set_current_experience() missing 1 required positional argument: id"
  else
    .error "TypeError: set_current_experience() got an unexpected keyword argument"

/-- The `PATCH /api/current` handler body (`update_current_experience`,
after `validate_auth_code` has admitted the request):
`controller_api.set_current_experience(**update.dict())`. -/
def update_current_experience (u : CurrentExperienceUpdate) :
    Except String ControllerCall :=
  set_current_experience_call u.dict

/-! ## Helper lemmas -/

/-- Inserting under a key makes that key retrievable with the stored value. -/
theorem dictGet_insert_self (k : String) (v : α) (d : List (String × α)) :
    dictGet k (dictInsert k v d) = some v := by
  induction d with
  | nil => simp [dictInsert, dictGet]
  | cons kv rest ih =>
    by_cases h : kv.1 = k
    · simp [dictInsert, dictGet, h]
    · simp [dictInsert, dictGet, h, ih]

/-- `_check` cannot raise when its first argument is an actual string. -/
theorem check_ok_of_some (a : String) (b : Option String) :
    ∃ r, AuthManager._check (some a) b = .ok r := by
  cases b with
  | none => exact ⟨false, rfl⟩
  | some y => exact ⟨AuthManager.compare_digest a y, rfl⟩

/-- The invariant carried by every reachable `AuthManager` state: the current
code is never `None`, and the next code is `None` exactly in the closed-lock
state. -/
theorem reachable_auth_invariant (s : AuthState)
    (h : AuthManager.Reachable s) :
    s.code ≠ none ∧ (s.next_code = none ↔ s.lock = Lock.bool true) := by
  induction h with
  | init c0 c1 => simp [AuthManager.init]
  | @advance s fresh hr ih =>
    rcases ih with ⟨ihc, ihn⟩
    by_cases ht : s.lock.truthy
    · simpa [AuthManager.advance, ht] using ⟨ihc, ihn⟩
    · have hlock : s.lock ≠ Lock.bool true := by
        intro he
        rw [he] at ht
        simp [Lock.truthy, Lock.pyValue] at ht
      have hnext : s.next_code ≠ none := fun he => hlock (ihn.mp he)
      simp only [AuthManager.advance, ht]
      refine ⟨hnext, ?_⟩
      simp [hlock]
  | @set_lock s l f1 f2 hr ih =>
    rcases ih with ⟨ihc, ihn⟩
    unfold AuthManager.set_lock
    by_cases he : Lock.pyEq l s.lock
    · simpa [he] using ⟨ihc, ihn⟩
    · unfold AuthManager._handle_lock_change
      cases l with
      | int n =>
        simp [he, Lock.isIntNotBool, ihc]
      | bool b =>
        cases b with
        | true => simp [he, Lock.isIntNotBool, ihc]
        | false =>
          by_cases hb : s.lock.isBoolInstance
          · simp [he, Lock.isIntNotBool, hb]
          · simp [he, Lock.isIntNotBool, hb, ihc]

/-! ## Claim theorems -/

/-- Claim C1 (code bug, evaluated at the failing input): `messaging_in`
passes the URL-path code as the second positional argument and the fresh
uuid as the third, so against the dataclass field order the URL code lands
in `id` and the uuid in `auth_code`.  With current code `"abc"` and a valid
URL code `"abc"` (so `check("abc")` is true), the admission check runs on
the uuid instead, fails, and the client is deauthed and closed without being
registered — the claim's admitted-under-a-fresh-uuid behaviour never
happens. -/
theorem messaging_in_swapped_ids_reject_valid_code :
    (messaging_in_connection "abc"
      "550e8400-e29b-41d4-a716-446655440000").id = "abc" ∧
    (messaging_in_connection "abc"
      "550e8400-e29b-41d4-a716-446655440000").auth_code =
      "550e8400-e29b-41d4-a716-446655440000" ∧
    AuthManager.checkBool (AuthManager.init "abc" "B") "abc" = true ∧
    try_connect_client (AuthManager.init "abc" "B") {}
      (messaging_in_connection "abc"
        "550e8400-e29b-41d4-a716-446655440000") =
      ({}, { id := "abc",
             auth_code := "550e8400-e29b-41d4-a716-446655440000",
             closed := true },
       [.sendClientSocket "abc"
          (.access none none false
            (some "Your authentication code is expired or invalid")),
        .closeClientSocket "abc"]) :=
  ⟨rfl, rfl, rfl, rfl⟩

/-- Claim C2, counterexample: in the initial state with codes `"A"`/`"B"`,
the code `"B"` satisfies `check_next` but a client websocket connection
carrying it is rejected (not registered, socket closed), so the claimed
admission-with-one-advance does not hold for websocket admissions. -/
theorem websocket_next_code_admission_cex :
    AuthManager.checkNextBool (AuthManager.init "A" "B") "B" = true ∧
    (try_connect_client (AuthManager.init "A" "B") {}
      { id := "cid", auth_code := "B" }).1 = ({} : ConnectionManager) ∧
    (try_connect_client (AuthManager.init "A" "B") {}
      { id := "cid", auth_code := "B" }).2.1.closed = true :=
  ⟨rfl, rfl, rfl⟩

/-- Claim C2, amended: on the guarded HTTP routes a credential matching
`next_code` is admitted and `AuthManager.advance()` runs exactly once before
the request is served; client websocket admission checks only the current
code and never calls `advance`, so a connection whose code passes only
`check_next` is rejected. -/
theorem http_next_code_single_advance (s : AuthState) (c fresh : String)
    (mgr : ConnectionManager) (conn : ClientConnection)
    (h : AuthManager.checkNextBool s c = true)
    (hc : AuthManager.checkBool s conn.auth_code = false) :
    (validate_auth_code s (some c) none fresh).advance_calls = 1 ∧
    (validate_auth_code s (some c) none fresh).response =
      .ok ((AuthManager.advance fresh s).code) ∧
    (validate_auth_code s (some c) none fresh).auth =
      AuthManager.advance fresh s ∧
    (try_connect_client s mgr conn).1 = mgr ∧
    (try_connect_client s mgr conn).2.1.closed = true := by
  unfold validate_auth_code validate_with_code try_connect_client
  simp [h, hc]

/-- Witness for `http_next_code_single_advance` at the initial state with
codes `"A"`/`"B"` and credential `"B"`. -/
theorem http_next_code_single_advance_witness :
    (validate_auth_code (AuthManager.init "A" "B")
      (some "B") none "C").advance_calls = 1 ∧
    (try_connect_client (AuthManager.init "A" "B") {}
      { id := "cid", auth_code := "B" }).2.1.closed = true :=
  ⟨(http_next_code_single_advance (AuthManager.init "A" "B") "B" "C" {}
      { id := "cid", auth_code := "B" } rfl rfl).1,
   (http_next_code_single_advance (AuthManager.init "A" "B") "B" "C" {}
      { id := "cid", auth_code := "B" } rfl rfl).2.2.2.2⟩

/-- Claim C3, counterexample: with `AuthManager.lock` set to `True`
(closed), an app connection as constructed by `messaging_out` still performs
the admission short-circuit on a client `ConnectMessage` — its own `lock`
field is the dataclass default `False` and no code path ever mirrors
`AuthManager.lock` into it — contradicting the claimed
"iff the lock is not Closed". -/
theorem connect_short_circuit_under_closed_lock_cex :
    (AuthManager.set_lock (.bool true) "F1" "F2"
      (AuthManager.init "A" "B")).lock = Lock.bool true ∧
    AppConnection._handle_send_message
      { clients := [("c1", { id := "c1", auth_code := "K" })] }
      (messaging_out_connection "demo")
      (.info { client := "c1", message := .connect "demo" }) =
    .ok ({ id := "demo",
           clients := [("c1", { id := "c1", auth_code := "K" })] },
      [.sendApp (.heartbeatClient true [some "c1"]) none,
       .enqueueClient "c1" defaultClientQueue "demo"
         (.access (some "demo") (some "c1") true none),
       .sendApp (.connect "demo") (some "c1")]) :=
  ⟨rfl, rfl⟩

/-- Claim C3, amended: the admission short-circuit on a dequeued client
`ConnectMessage` happens iff the connection's own `lock` field is falsy at
message-handling time; that field is initialised to `False` by
`messaging_out` and never assigned afterwards, so it does not mirror
`AuthManager.lock`. -/
theorem connect_short_circuit_iff_conn_lock_falsy
    (mgr : ConnectionManager) (c : AppConnection) (cid app : String)
    (clientConn : ClientConnection)
    (hget : dictGet cid mgr.clients = some clientConn)
    (hid : clientConn.id = cid) :
    (messaging_out_connection app).lock = Lock.bool false ∧
    (c.lock.truthy = false →
      AppConnection._handle_send_message mgr c
        (.info { client := cid, message := .connect app }) =
      .ok ({ c with clients := dictInsert cid clientConn c.clients },
        [.sendApp
           (.heartbeatClient true
             ((dictKeys (dictInsert cid clientConn c.clients)).map
               Option.some)) none,
         .enqueueClient cid clientConn.queueId c.id
           (.access (some c.id) (some cid) true none),
         .sendApp (.connect app) (some cid)])) ∧
    (c.lock.truthy = true →
      AppConnection._handle_send_message mgr c
        (.info { client := cid, message := .connect app }) =
      .ok (c, [.sendApp (.connect app) (some cid)])) := by
  refine ⟨rfl, ?_, ?_⟩
  · intro hl
    unfold AppConnection._handle_send_message
    simp only [Message.isConnect, hl, Bool.not_false, Bool.and_true, hget]
    unfold AppConnection.add_client AppConnection._send_to_client
      AppConnection.send_client_heartbeats AppConnection.send_heartbeat
    simp [Message.hasClientAttr, Message.clientField, hid,
      dictGet_insert_self]
  · intro hl
    unfold AppConnection._handle_send_message
    simp [Message.isConnect, hl]

/-- Witness for `connect_short_circuit_iff_conn_lock_falsy` with a concrete
registered client and the app connection built by `messaging_out`. -/
theorem connect_short_circuit_witness :
    AppConnection._handle_send_message
      { clients := [("c2", { id := "c2", auth_code := "K" })] }
      (messaging_out_connection "app")
      (.info { client := "c2", message := .connect "app" }) =
    .ok ({ messaging_out_connection "app" with
           clients := dictInsert "c2"
             { id := "c2", auth_code := "K" }
             (messaging_out_connection "app").clients },
      [.sendApp
         (.heartbeatClient true
           ((dictKeys (dictInsert "c2"
             ({ id := "c2", auth_code := "K" } : ClientConnection)
             (messaging_out_connection "app").clients)).map Option.some))
         none,
       .enqueueClient "c2"
         ({ id := "c2", auth_code := "K" } : ClientConnection).queueId
         (messaging_out_connection "app").id
         (.access (some (messaging_out_connection "app").id) (some "c2")
           true none),
       .sendApp (.connect "app") (some "c2")]) :=
  (connect_short_circuit_iff_conn_lock_falsy
    { clients := [("c2", { id := "c2", auth_code := "K" })] }
    (messaging_out_connection "app") "c2" "app"
    { id := "c2", auth_code := "K" } rfl rfl).2.1 rfl

/-- Claim C4, counterexample: a `DisplaySettingsMessage` carrying
`lock = True` makes the handler patch the whole settings object to the
controller; no `AuthManager.set_lock` invocation occurs anywhere in the
produced effects. -/
theorem display_settings_no_set_lock_cex :
    AppConnection._handle_receive_message {} (messaging_out_connection "demo")
      (.displaySettings { lock := some (.bool true) }) =
    .ok (messaging_out_connection "demo",
      [.patchCurrentExperience { lock := some (.bool true) }]) ∧
    Effect.setAuthLock (.bool true) ∉
      [Effect.patchCurrentExperience
        { lock := some (.bool true), end_time := none }] :=
  ⟨rfl, by decide⟩

/-- Claim C4, amended: on a `DisplaySettingsMessage` the handler forwards
the settings object (whatever combination of `lock` and `end_time` it
holds) wholesale to the controller via `patch_current_experience`, and does
nothing else: `AuthManager` is not touched and nothing is forwarded to any
client. -/
theorem display_settings_controller_only (mgr : ConnectionManager)
    (c : AppConnection) (settings : DisplaySettings) :
    AppConnection._handle_receive_message mgr c (.displaySettings settings) =
    .ok (c, [.patchCurrentExperience settings]) :=
  rfl

/-- Claim C5 (code bug, evaluated at the failing input): for an
`AccessMessage{client:"c1", accepted:false}` naming a client registered both
with the router and with the app connection, the source builds the
`remove_client` coroutine in a conditional expression but never awaits it,
so the clients map is unchanged and no negative heartbeat is sent; the only
effect is the forward of the message to the client. -/
theorem access_message_unawaited_coroutine_eval :
    AppConnection._handle_receive_message
      { clients := [("c1", { id := "c1", auth_code := "K" })] }
      { id := "demo", clients := [("c1", { id := "c1", auth_code := "K" })] }
      (.access (some "demo") (some "c1") false none) =
    .ok ({ id := "demo",
           clients := [("c1", { id := "c1", auth_code := "K" })] },
      [.enqueueClient "c1" defaultClientQueue "demo"
        (.access (some "demo") (some "c1") false none)]) ∧
    AppConnection.has_client
      { id := "demo", clients := [("c1", { id := "c1", auth_code := "K" })] }
      "c1" = true :=
  ⟨rfl, rfl⟩

/-- Claim C6, counterexample: starting from a reachable `Capacity(2)` state
with current code `"K"` and a disarmed auto-cycle timer, `set_lock(Open)`
with fresh codes `"F1"`/`"F2"` regenerates only `next_code`: the current
code stays `"K"` (not a fresh code) and the timer stays disarmed. -/
theorem capacity_to_open_keeps_code_cex :
    AuthManager.set_lock (.bool false) "F1" "F2"
      (AuthManager.advance "Z"
        (AuthManager.set_lock (.int 2) "X" "Y"
          (AuthManager.init "K" "B"))) =
    { code := some "K", next_code := some "F1", last_lock := .int 2,
      lock := .bool false, timer_armed := false } ∧
    ("K" ≠ "F1" ∧ "K" ≠ "F2") :=
  ⟨rfl, by decide⟩

/-- Claim C6, amended: on a `set_lock` transition from `Capacity(n)` to
`Open`, `next_code` is replaced by a freshly generated code, but
`current_code` is left unchanged (it is regenerated only when the previous
lock was a boolean, i.e. on `Closed → Open`), and the auto-cycle timer state
is not touched by the lock change. -/
theorem capacity_to_open_amended (s : AuthState) (n : Int) (f1 f2 : String)
    (hl : s.lock = .int n) (hn : n ≠ 0) :
    (AuthManager.set_lock (.bool false) f1 f2 s).code = s.code ∧
    (AuthManager.set_lock (.bool false) f1 f2 s).next_code = some f1 ∧
    (AuthManager.set_lock (.bool false) f1 f2 s).timer_armed =
      s.timer_armed ∧
    (AuthManager.set_lock (.bool false) f1 f2 s).lock = .bool false := by
  have hne : Lock.pyEq (.bool false) (.int n) = false := by
    simp [Lock.pyEq, Lock.pyValue]
    omega
  unfold AuthManager.set_lock AuthManager._handle_lock_change
  simp [hne, Lock.isIntNotBool, Lock.isBoolInstance, hl]

/-- Witness for `capacity_to_open_amended` at a concrete `Capacity(2)`
state. -/
theorem capacity_to_open_amended_witness :
    (AuthManager.set_lock (.bool false) "F1" "F2"
      (AuthManager.set_lock (.int 2) "X" "Y"
        (AuthManager.init "K" "B"))).code =
      (AuthManager.set_lock (.int 2) "X" "Y"
        (AuthManager.init "K" "B")).code :=
  (capacity_to_open_amended
    (AuthManager.set_lock (.int 2) "X" "Y" (AuthManager.init "K" "B"))
    2 "F1" "F2" rfl (by decide)).1

/-- Claim C7 (confirmed): in every reachable `AuthManager` state — after
construction and any sequence of atomic `advance()` and lock-setter
operations — `next_code` is `None` if and only if the lock is `True`
(closed). -/
theorem reachable_next_code_none_iff_closed (s : AuthState)
    (h : AuthManager.Reachable s) :
    s.next_code = none ↔ s.lock = Lock.bool true :=
  (reachable_auth_invariant s h).2

/-- Witness for `reachable_next_code_none_iff_closed`: after closing the
lock from the initial state, `next_code` is `None`. -/
theorem reachable_next_code_none_iff_closed_witness :
    (AuthManager.set_lock (.bool true) "C" "D"
      (AuthManager.init "A" "B")).next_code = none :=
  (reachable_next_code_none_iff_closed _
    (AuthManager.Reachable.set_lock _ _ _
      (AuthManager.Reachable.init "A" "B"))).mpr rfl

/-- Claim C8 (code bug, evaluated at the failing input): the
`PATCH /api/current` handler calls
`controller_api.set_current_experience(**update.dict())`, but that method's
signature accepts only the keyword `id`, so every request — here one
carrying `end_time = 100` and `lock = True` — raises `TypeError` instead of
patching the fields to the controller. -/
theorem patch_current_type_error_eval :
    update_current_experience
      { end_time := some 100, lock := some (.bool true) } =
      .error "TypeError: set_current_experience() got an unexpected keyword argument" ∧
    ∀ u : CurrentExperienceUpdate,
      update_current_experience u =
        .error "TypeError: set_current_experience() got an unexpected keyword argument" :=
  ⟨rfl, fun _ => rfl⟩

/-- Claim C9, counterexample: with both compared codes `None`, the guard
`(a is None) != (b is None)` is false and control reaches
`secrets.compare_digest(None, None)`, which raises `TypeError` — the
comparison does not return `false` (or any boolean) there. -/
theorem check_both_none_raises_cex :
    AuthManager._check none none ≠ Except.ok false ∧
    AuthManager._check none none =
      .error "TypeError: expected str or bytes-like object, not NoneType" :=
  ⟨fun h => Except.noConfusion h, rfl⟩

/-- Claim C9, amended: the comparison returns `false` when exactly one of
the two codes is `⊥` and when two present codes differ (in particular in
length), but when both codes are `⊥` it raises `TypeError` instead of
returning not-equal. -/
theorem check_total_amended (x y : String) (hlen : x.length ≠ y.length) :
    AuthManager._check (some x) none = .ok false ∧
    AuthManager._check none (some x) = .ok false ∧
    AuthManager._check (some x) (some y) = .ok false ∧
    AuthManager._check none none =
      .error "TypeError: expected str or bytes-like object, not NoneType" := by
  have hxy : x ≠ y := fun he => hlen (he ▸ rfl)
  refine ⟨rfl, rfl, ?_, rfl⟩
  simp [AuthManager._check, AuthManager.compare_digest, hxy]

/-- Witness for `check_total_amended` on codes of lengths 2 and 3. -/
theorem check_total_amended_witness :
    AuthManager._check (some "ab") (some "abc") = .ok false :=
  (check_total_amended "ab" "abc" (by decide)).2.2.1

/-- Claim C10 (code bug, evaluated at the failing input): the `queue`
dataclass field uses a plain default `asyncio.Queue()` (evaluated once at
class-definition time) rather than a `default_factory`, so the two distinct
app connections built by `messaging_out` share one queue object: an item
enqueued through `"app1"`'s `send_message_from_client` is the very item
`"app2"`'s `send_handler` dequeues next. -/
theorem shared_queue_cross_dequeue_eval :
    (messaging_out_connection "app1").id ≠
      (messaging_out_connection "app2").id ∧
    (messaging_out_connection "app1").queueId =
      (messaging_out_connection "app2").queueId ∧
    send_handler_next
      (send_message_from_client (fun _ => [])
        (messaging_out_connection "app1") "c1" (.connect "app1"))
      (messaging_out_connection "app2") =
      some (.info { client := "c1", message := .connect "app1" }) :=
  ⟨by decide, rfl, rfl⟩

end Footron

